import Mathlib

/-!
Verification of the churn-prediction ML pipeline (training orchestration,
champion/challenger promotion, drift monitoring) against its source.

Numeric values that the Python code handles as floats (AUC scores,
KS statistics and p-values, split ratios) are modelled as rationals;
the comparisons the code performs on them are order comparisons that
rationals mirror exactly.  External collaborators (MySQL, MLflow, S3,
scipy, sklearn internals) are abstracted as explicit inputs, as the
spec scopes them out; the decision logic itself is translated verbatim.
-/

set_option linter.unusedVariables false

namespace ChurnProject

namespace Monitoring

/-- Per-feature entry of the drift report built by
`monitoring/data_drift/monitoring_tasks.py::detect_data_drift`. -/
structure FeatureDrift where
  p_value : ℚ
  statistic : ℚ
  drifted : Bool
deriving Repr, DecidableEq

/-- The dict returned by `detect_data_drift` (lines 98-118): overall flag,
threshold used, and one entry per tested column, in insertion order.
The Python features dict is keyed by the reference-frame column labels,
which are distinct (they come from a SQL SELECT column list), so ordered
association-list insertion coincides with dict insertion. -/
structure DriftReport where
  drift_detected : Bool
  threshold : ℚ
  features : List (String × FeatureDrift)
deriving Repr, DecidableEq

/-- `monitoring_tasks.py::detect_data_drift` (lines 69-118).  The loop runs
`scipy.stats.ks_2samp(reference_data[col], current_data[col])` for every
column of the reference frame; the two-sample KS test itself is an external
statistical routine, abstracted by the `ks_2samp` argument which yields the
(statistic, p_value) pair for a column.  In any run that completes, every
reference column is present in the current frame (pandas would raise
KeyError otherwise), so the tested columns are exactly the shared ones.
A column is drifted when its p-value is strictly below the threshold, and
the overall flag is set as soon as one drifted column is seen. -/
def detect_data_drift (reference_columns : List String)
    (ks_2samp : String → ℚ × ℚ) (threshold : ℚ) : DriftReport :=
  reference_columns.foldl
    (fun drift_report col =>
      let stat := (ks_2samp col).1
      let p_value := (ks_2samp col).2
      let drifted : Bool := decide (p_value < threshold)
      { drift_report with
          features := drift_report.features ++ [(col, ⟨p_value, stat, drifted⟩)],
          drift_detected := drift_report.drift_detected || drifted })
    { drift_detected := false, threshold := threshold, features := [] }

/-- The per-column result recorded for `col` by the loop body. -/
def feature_result (ks_2samp : String → ℚ × ℚ) (threshold : ℚ) (col : String) :
    FeatureDrift :=
  ⟨(ks_2samp col).2, (ks_2samp col).1, decide ((ks_2samp col).2 < threshold)⟩

theorem detect_foldl_characterisation (ks : String → ℚ × ℚ) (thr : ℚ)
    (cols : List String) (acc : DriftReport) :
    (cols.foldl
      (fun drift_report col =>
        let stat := (ks col).1
        let p_value := (ks col).2
        let drifted : Bool := decide (p_value < thr)
        { drift_report with
            features := drift_report.features ++ [(col, ⟨p_value, stat, drifted⟩)],
            drift_detected := drift_report.drift_detected || drifted }) acc) =
      { drift_detected := acc.drift_detected || cols.any (fun c => decide ((ks c).2 < thr)),
        threshold := acc.threshold,
        features := acc.features ++ cols.map (fun c => (c, feature_result ks thr c)) } := by
  induction cols generalizing acc with
  | nil => simp
  | cons c cs ih =>
      simp only [List.foldl_cons, List.any_cons, List.map_cons, ih]
      cases acc with
      | mk d t f =>
          simp [feature_result, Bool.or_assoc]

theorem detect_data_drift_features (cols : List String)
    (ks : String → ℚ × ℚ) (thr : ℚ) :
    (detect_data_drift cols ks thr).features =
      cols.map (fun c => (c, feature_result ks thr c)) := by
  simp [detect_data_drift, detect_foldl_characterisation]

theorem detect_data_drift_flag (cols : List String)
    (ks : String → ℚ × ℚ) (thr : ℚ) :
    (detect_data_drift cols ks thr).drift_detected =
      cols.any (fun c => decide ((ks c).2 < thr)) := by
  simp [detect_data_drift, detect_foldl_characterisation]

theorem detect_data_drift_threshold (cols : List String)
    (ks : String → ℚ × ℚ) (thr : ℚ) :
    (detect_data_drift cols ks thr).threshold = thr := by
  simp [detect_data_drift, detect_foldl_characterisation]

/-- Claim C4: for every pair of datasets (abstracted by their shared column
list and the KS-test oracle on them) and every threshold, `detect_data_drift`
records one KS-test entry per tested column whose drifted mark is exactly
the test of its p-value being strictly below the threshold (the first
conjunct pins every per-column entry), and sets `drift_detected` to true if
and only if at least one column is drifted (OR semantics over the columns,
not a majority vote). -/
theorem detect_data_drift_spec (cols : List String)
    (ks : String → ℚ × ℚ) (thr : ℚ) :
    ((detect_data_drift cols ks thr).features =
        cols.map (fun c => (c, ⟨(ks c).2, (ks c).1, decide ((ks c).2 < thr)⟩))) ∧
      ((detect_data_drift cols ks thr).drift_detected = true ↔
        ∃ c ∈ cols, (ks c).2 < thr) := by
  refine ⟨detect_data_drift_features cols ks thr, ?_⟩
  rw [detect_data_drift_flag]
  simp

/-- The list comprehension shared by `retraining_trigger` and
`generate_evidently_report`: the names of the drifted features, in report
order. -/
def drifted_feature_names (drift_report : DriftReport) : List String :=
  (drift_report.features.filter (fun kv => kv.2.drifted)).map (fun kv => kv.1)

theorem drifted_feature_names_detect (cols : List String)
    (ks : String → ℚ × ℚ) (thr : ℚ) :
    drifted_feature_names (detect_data_drift cols ks thr) =
      cols.filter (fun c => decide ((ks c).2 < thr)) := by
  rw [drifted_feature_names, detect_data_drift_features]
  induction cols with
  | nil => rfl
  | cons c cs ih =>
      have ih2 := ih
      simp only [feature_result] at ih2
      by_cases h : (ks c).2 < thr <;> simp [feature_result, h, ih2]

/-- The deployment-run request issued by
`monitoring/data_drift/retraining_trigger.py` via `run_deployment`: the
deployment name and the parameters passed to the training flow.  The
parameter named `num_drifted_features` carries, as in the source, the list
of drifted feature names. -/
structure TriggerCall where
  deployment_name : String
  trigger_reason : String
  drift_date : String
  threshold : ℚ
  num_drifted_features : List String
deriving Repr, DecidableEq

/-- `retraining_trigger.py::retraining_trigger` (lines 5-35): returns early
with no action when the report flag is false, otherwise issues exactly one
training-flow run with the audit parameters.  The issued call (or its
absence) is the returned value. -/
def retraining_trigger (drift_report : DriftReport) (date : String) :
    Option TriggerCall :=
  if drift_report.drift_detected = false then none
  else
    some
      { deployment_name := "TrainingPipelineFlow/churn_train",
        trigger_reason := "Data Drift Detected",
        drift_date := date,
        threshold := drift_report.threshold,
        num_drifted_features := drifted_feature_names drift_report }

/-- Claim C6: for every drift report produced by the monitor,
`retraining_trigger` invokes the training flow if and only if the report
has `drift_detected = true`, and the single call it then issues carries the
trigger reason, the inspected date partition, the threshold used and the
drifted feature names; on a negative report it returns with no action. -/
theorem retraining_trigger_spec (cols : List String)
    (ks : String → ℚ × ℚ) (thr : ℚ) (date : String) :
    retraining_trigger (detect_data_drift cols ks thr) date =
      (if (detect_data_drift cols ks thr).drift_detected = true then
        some
          { deployment_name := "TrainingPipelineFlow/churn_train",
            trigger_reason := "Data Drift Detected",
            drift_date := date,
            threshold := thr,
            num_drifted_features := cols.filter (fun c => decide ((ks c).2 < thr)) }
      else none) := by
  rw [retraining_trigger]
  rcases h : (detect_data_drift cols ks thr).drift_detected with _ | _
  · simp [h]
  · simp [h, detect_data_drift_threshold, drifted_feature_names_detect]

/-- The JSON metadata record persisted by
`monitoring_tasks.py::generate_evidently_report` (lines 144-155). -/
structure DriftMetadata where
  date : String
  drift_detected : Bool
  threshold : ℚ
  num_features : ℕ
  num_drifted_features : ℕ
  drifted_features : List String
deriving Repr, DecidableEq

/-- The metadata dict built by `generate_evidently_report` (lines 144-155)
from the drift report; the evidently HTML rendering and the S3 upload of the
folder are external effects outside the record contents. -/
def generate_evidently_report_metadata (drift_report : DriftReport)
    (date : String) : DriftMetadata :=
  { date := date,
    drift_detected := drift_report.drift_detected,
    threshold := drift_report.threshold,
    num_features := drift_report.features.length,
    num_drifted_features := drift_report.features.countP (fun kv => kv.2.drifted),
    drifted_features := drifted_feature_names drift_report }

/-- Claim C10: for every drift report produced by the monitor, the persisted
metadata fields are mutually consistent: `num_features` equals the number of
per-feature entries tested, `num_drifted_features` equals both the number of
entries with `drifted = true` and the length of `drifted_features`,
`drifted_features` lists exactly the names of the drifted columns, and
`drift_detected` holds if and only if `num_drifted_features` is positive. -/
theorem drift_metadata_consistent (cols : List String)
    (ks : String → ℚ × ℚ) (thr : ℚ) (date : String) :
    (generate_evidently_report_metadata (detect_data_drift cols ks thr) date).num_features =
        (detect_data_drift cols ks thr).features.length ∧
      (generate_evidently_report_metadata (detect_data_drift cols ks thr) date).num_features =
        cols.length ∧
      (generate_evidently_report_metadata (detect_data_drift cols ks thr) date).num_drifted_features =
        ((detect_data_drift cols ks thr).features.filter (fun kv => kv.2.drifted)).length ∧
      (generate_evidently_report_metadata (detect_data_drift cols ks thr) date).drifted_features =
        ((detect_data_drift cols ks thr).features.filter (fun kv => kv.2.drifted)).map
          (fun kv => kv.1) ∧
      (generate_evidently_report_metadata (detect_data_drift cols ks thr) date).drifted_features.length =
        (generate_evidently_report_metadata (detect_data_drift cols ks thr) date).num_drifted_features ∧
      ((generate_evidently_report_metadata (detect_data_drift cols ks thr) date).drift_detected = true ↔
        0 < (generate_evidently_report_metadata (detect_data_drift cols ks thr) date).num_drifted_features) := by
  refine ⟨rfl, ?_, ?_, rfl, ?_, ?_⟩
  · simp [generate_evidently_report_metadata, detect_data_drift_features]
  · simp [generate_evidently_report_metadata, List.countP_eq_length_filter]
  · simp [generate_evidently_report_metadata, drifted_feature_names,
      List.countP_eq_length_filter]
  · rw [generate_evidently_report_metadata]
    simp only [detect_data_drift_flag, detect_data_drift_features]
    rw [List.countP_map, List.any_eq_true, List.countP_pos_iff]
    constructor
    · rintro ⟨c, hc, hp⟩
      exact ⟨c, hc, by simpa [feature_result] using hp⟩
    · rintro ⟨c, hc, hp⟩
      exact ⟨c, hc, by simpa [feature_result] using hp⟩

end Monitoring

namespace ModelEvaluation

/-- A trained classifier, abstracted by the only observable the evaluation
decision consumes: its ROC-AUC on the fixed transformed test set. -/
structure Model where
  auc_on_test : ℚ
deriving Repr, DecidableEq

/-- `model_evaluation.py::ModelEvaluation.evaluate_model` (lines 38-44):
computes `roc_auc_score` of the model predictions on the test set.  The
sklearn scoring internals are abstracted by the `auc_on_test` field. -/
def evaluate_model (model : Model) : ℚ :=
  model.auc_on_test

/-- `entity/config_entity.py::ModelEvaluationConfig` (lines 47-54): the
dataclass the evaluation component is annotated with.  Its registry field
is named `registry_name`; no field named `model_registry_name` exists. -/
structure ModelEvaluationConfig where
  root_dir : String
  model_evaluation_report_path : String
  registry_name : String
  prod_registry_name : String
  mlflow_uri : String
  mlflow_experiment_name : String
deriving Repr, DecidableEq

/-- Python runtime attribute lookup on the `ModelEvaluationConfig`
dataclass: exactly the six declared fields resolve; any other attribute
name raises AttributeError, modelled as `none`. -/
def ModelEvaluationConfig.getattr (c : ModelEvaluationConfig) :
    String → Option String
  | "root_dir" => some c.root_dir
  | "model_evaluation_report_path" => some c.model_evaluation_report_path
  | "registry_name" => some c.registry_name
  | "prod_registry_name" => some c.prod_registry_name
  | "mlflow_uri" => some c.mlflow_uri
  | "mlflow_experiment_name" => some c.mlflow_experiment_name
  | _ => none

/-- `model_evaluation.py::_get_latest_production_model` (lines 27-36): the
f-string at line 31 reads `self.config.model_registry_name` INSIDE the
`try`, so with the repository config class the attribute access itself
raises and is swallowed by the catch-all `except` (returning None) before
the registry is ever consulted; were the attribute present, the load by the
resulting URI (abstracted by `registry_lookup`) would be attempted and any
load failure — the missing-champion case included — likewise caught. -/
def get_latest_production_model (config : ModelEvaluationConfig)
    (registry_lookup : String → Except String Model) : Option Model :=
  match config.getattr "model_registry_name" with
  | some registry =>
      match registry_lookup ("models:/" ++ registry ++ "@live") with
      | .ok m => some m
      | .error _ => none
  | none => none

theorem get_latest_production_model_none (config : ModelEvaluationConfig)
    (registry_lookup : String → Except String Model) :
    get_latest_production_model config registry_lookup = none := by
  rfl

/-- The artifact of `entity/artifact_entity.py::ModelEvaluationArtifact`. -/
structure ModelEvaluationArtifact where
  is_model_accepted : Bool
  model_evaluation_report_path : String
deriving Repr, DecidableEq

/-- The evaluation report dict saved by `initiate_model_evaluation`
(lines 129-137). -/
structure EvaluationReport where
  new_model_auc : ℚ
  production_model_auc : ℚ
  is_model_accepted : Bool
deriving Repr, DecidableEq

/-- One MLflow model-registry operation issued through `MlflowClient`. -/
inductive RegistryAction where
  | set_model_version_tag (name : String) (version : ℕ) (key value : String)
  | set_registered_model_alias (name : String) (alias_name : String) (version : ℕ)
  | copy_model_version (src_model_uri : String) (dst_name : String)
deriving Repr, DecidableEq

/-- Everything a completed evaluation run produces: the returned artifact,
the persisted report, and the registry operations performed. -/
structure EvaluationOutcome where
  artifact : ModelEvaluationArtifact
  report : EvaluationReport
  registry_actions : List RegistryAction
deriving Repr, DecidableEq

/-- `model_evaluation.py::initiate_model_evaluation` (lines 46-149).  The
test-set load, the joblib model load and the MLflow logging calls are
abstracted; `registry_lookup` is the MLflow load-by-URI interface and
`new_model` the freshly trained challenger, whose registry version is
`new_model_version`.  The acceptance comparison at line 86 is
`new_model_auc > prod_model_auc`, with the sentinel `prod_model_auc = 0.0`
when no production model was found (line 80).  Whichever branch is taken
then calls `client.set_model_version_tag(name=self.config.model_registry_name, ...)`
(lines 93-98 resp. 122-127); that attribute is resolved against the config
dataclass, and its failure propagates to the outer try/except (lines
148-149), which wraps it in a CustomException — before the report is saved
(line 136) or the artifact is built (line 142). -/
def initiate_model_evaluation (config : ModelEvaluationConfig)
    (registry_lookup : String → Except String Model) (new_model : Model)
    (new_model_version : ℕ) : Except String EvaluationOutcome :=
  let new_model_auc := evaluate_model new_model
  let production_model := get_latest_production_model config registry_lookup
  let prod_model_auc : ℚ :=
    match production_model with
    | some m => evaluate_model m
    | none => 0
  if new_model_auc > prod_model_auc then
    match config.getattr "model_registry_name" with
    | some registry =>
        .ok
          { artifact := ⟨true, config.model_evaluation_report_path⟩,
            report := ⟨new_model_auc, prod_model_auc, true⟩,
            registry_actions :=
              [.set_model_version_tag registry new_model_version
                  "validation_status" "approved",
                .set_registered_model_alias registry "candidate"
                  new_model_version,
                .copy_model_version ("models:/" ++ registry ++ "@candidate")
                  (registry.replace "dev" "staging")] }
    | none =>
        .error
          "CustomException: AttributeError: ModelEvaluationConfig object has no attribute model_registry_name"
  else
    match config.getattr "model_registry_name" with
    | some registry =>
        .ok
          { artifact := ⟨false, config.model_evaluation_report_path⟩,
            report := ⟨new_model_auc, prod_model_auc, false⟩,
            registry_actions :=
              [.set_model_version_tag registry new_model_version
                  "validation_status" "rejected"] }
    | none =>
        .error
          "CustomException: AttributeError: ModelEvaluationConfig object has no attribute model_registry_name"

/-- Claim C1 divergence: no evaluation run ever produces an
EvaluationArtifact.  The branch condition at line 86 does implement the
claimed biconditional (strict comparison, margin fixed at the default 0,
sentinel 0.0 champion metric), but both branches then read
`self.config.model_registry_name` — a field `ModelEvaluationConfig`
declares as `registry_name` — so every run ends in a CustomException
before the artifact is built. -/
theorem initiate_model_evaluation_always_raises
    (config : ModelEvaluationConfig)
    (registry_lookup : String → Except String Model) (new_model : Model)
    (new_model_version : ℕ) :
    initiate_model_evaluation config registry_lookup new_model
        new_model_version =
      .error
        "CustomException: AttributeError: ModelEvaluationConfig object has no attribute model_registry_name" := by
  rw [initiate_model_evaluation]
  split <;> rfl

/-- A concrete evaluation config, with the field values the repository
configuration files would supply. -/
def sample_evaluation_config : ModelEvaluationConfig :=
  ⟨"artifacts/model_evaluation",
    "artifacts/model_evaluation/evaluation_report.json", "churn-model-dev",
    "churn-model-prod", "http://localhost:5000", "churn-prediction"⟩

/-- Claim C3 divergence at the bootstrap input: with no champion in the
production registry (every load attempt fails) and a challenger of test
AUC 0.51, the evaluation run raises a CustomException instead of completing
and accepting the challenger.  The missing champion itself is swallowed
(line 31 reads the nonexistent `self.config.model_registry_name` inside the
try, so the load always yields None); the throw comes from the tagging call
of the taken branch. -/
theorem no_champion_bootstrap_raises :
    initiate_model_evaluation sample_evaluation_config
        (fun uri => .error "RESOURCE_DOES_NOT_EXIST: no version with alias live")
        ⟨51/100⟩ 1 =
      .error
        "CustomException: AttributeError: ModelEvaluationConfig object has no attribute model_registry_name" := by
  rw [initiate_model_evaluation]
  split <;> rfl

end ModelEvaluation

namespace ModelPusher

/-- `entity/artifact_entity.py::ModelTrainerArtifact`: the dataclass the
trainer constructs (model_trainer.py lines 131-136) and both orchestrators
pass to the pusher.  Its registry-version field is named
`model_registry_version`. -/
structure ModelTrainerArtifact where
  trained_model_path : String
  model_registry_version : ℕ
  metric_score : ℚ
  model_name : String
deriving Repr, DecidableEq

/-- A Python attribute value of the trainer artifact. -/
inductive PyValue where
  | str (s : String)
  | nat (n : ℕ)
  | rat (q : ℚ)
deriving Repr, DecidableEq

/-- Python runtime attribute lookup on the `ModelTrainerArtifact` dataclass:
exactly the four declared fields resolve; any other attribute name raises
AttributeError, modelled as `none`. -/
def getattr_trainer (a : ModelTrainerArtifact) : String → Option PyValue
  | "trained_model_path" => some (.str a.trained_model_path)
  | "model_registry_version" => some (.nat a.model_registry_version)
  | "metric_score" => some (.rat a.metric_score)
  | "model_name" => some (.str a.model_name)
  | _ => none

/-- Modelled from the spec: PusherArtifact — a boolean `promoted` flag
(`model_pusher.py` imports `ModelPusherArtifact` from
`entity/artifact_entity.py`, where no such class is defined; the spec
describes it as a boolean `promoted` plus, when true, the production
version).  In the source the field holds the one-key dict
`promoted: True/False`; the boolean is that key value. -/
structure ModelPusherArtifact where
  promoted : Bool
deriving Repr, DecidableEq

/-- The MLflow registry and production-S3 state the pusher manipulates:
version tags set (name, version, key, value — most recent first), the next
version number the production registry will assign, the version currently
carrying the `champion` alias on the production registry, and the version
whose bundle was uploaded to the production S3 location. -/
structure RegistryState where
  version_tags : List (String × ℕ × String × String)
  prod_next_version : ℕ
  champion_alias : Option ℕ
  s3_deployed_version : Option ℕ
deriving Repr, DecidableEq

/-- `model_pusher.py::promote_in_mlflow` (lines 29-66): tag the staging
version approved, copy it into the production registry (MLflow assigns the
next production version), and move the `champion` alias onto the new
production version.  Returns the new production version. -/
def promote_in_mlflow (registry_name prod_registry_name : String)
    (st : RegistryState) (source_registry_version : ℕ) :
    RegistryState × ℕ :=
  let st1 : RegistryState :=
    { st with
        version_tags :=
          (registry_name, source_registry_version, "validation_status",
            "approved") :: st.version_tags }
  let dst_version := st1.prod_next_version
  let st2 : RegistryState :=
    { st1 with prod_next_version := dst_version + 1 }
  let st3 : RegistryState := { st2 with champion_alias := some dst_version }
  (st3, dst_version)

/-- `model_pusher.py::deploy_to_s3` (lines 68-109): stages the model bundle
plus the metadata record in a temporary directory and uploads it to the
fixed production S3 location; modelled as recording the deployed version. -/
def deploy_to_s3 (st : RegistryState) (prod_version : ℕ) : RegistryState :=
  { st with s3_deployed_version := some prod_version }

/-- `model_pusher.py::push_model` (lines 111-118). -/
def push_model (registry_name prod_registry_name : String)
    (st : RegistryState) (version : ℕ) : RegistryState :=
  let promoted := promote_in_mlflow registry_name prod_registry_name st version
  deploy_to_s3 promoted.1 promoted.2

/-- `model_pusher.py::initiate_model_pusher` (lines 120-146).  Both branches
read `model_trainer_artifact.registry_version` (lines 129 and 134) through
Python attribute lookup; the dataclass declares `model_registry_version`
instead, so the lookup fails.  The except handler at lines 144-146 wraps the
error in CustomException and re-raises, modelled by the `.error` result. -/
def initiate_model_pusher (registry_name prod_registry_name : String)
    (st : RegistryState)
    (model_evaluation_artifact : ModelEvaluation.ModelEvaluationArtifact)
    (model_trainer_artifact : ModelTrainerArtifact) :
    Except String (RegistryState × ModelPusherArtifact) :=
  if model_evaluation_artifact.is_model_accepted then
    match getattr_trainer model_trainer_artifact "registry_version" with
    | some (.nat version) =>
        .ok (push_model registry_name prod_registry_name st version, ⟨true⟩)
    | _ =>
        .error
          "CustomException: AttributeError: ModelTrainerArtifact object has no attribute registry_version"
  else
    match getattr_trainer model_trainer_artifact "registry_version" with
    | some (.nat version) =>
        .ok
          ({ st with
              version_tags :=
                (registry_name, version, "validation_status", "rejected") ::
                  st.version_tags },
            ⟨false⟩)
    | _ =>
        .error
          "CustomException: AttributeError: ModelTrainerArtifact object has no attribute registry_version"

/-- Claim C2 divergence: every pusher run raises.  `model_pusher.py` cannot
even be imported (it imports `ModelPusherArtifact` from
`entity/artifact_entity.py` and `ModelPusherConfig` from
`entity/config_entity.py`, neither of which is defined there), and its body
reads `model_trainer_artifact.registry_version` while the repository
trainer artifact only defines `model_registry_version`, so both the
accepted and the rejected branch end in a CustomException — no run tags the
staging version, changes an alias, or returns a `promoted` flag. -/
theorem initiate_model_pusher_always_raises (registry_name
    prod_registry_name : String) (st : RegistryState)
    (model_evaluation_artifact : ModelEvaluation.ModelEvaluationArtifact)
    (model_trainer_artifact : ModelTrainerArtifact) :
    initiate_model_pusher registry_name prod_registry_name st
        model_evaluation_artifact model_trainer_artifact =
      .error
        "CustomException: AttributeError: ModelTrainerArtifact object has no attribute registry_version" := by
  rw [initiate_model_pusher]
  rcases h : model_evaluation_artifact.is_model_accepted with _ | _ <;> simp [getattr_trainer]

end ModelPusher

namespace DataValidation

/-- `entity/artifact_entity.py::DataValidationArtifact` (lines 12-15): the
dataclass `data_validation.py` imports.  Its only fields are
`validation_status` and `validation_report_path` — no `message` and no
`drift_report_file_path`. -/
structure DataValidationArtifact where
  validation_status : Bool
  validation_report_path : String
deriving Repr, DecidableEq

/-- A Python attribute value of the validation config: a string (the paths)
or the schema dict mapping column name to dtype string. -/
inductive ConfigValue where
  | str (s : String)
  | dict (d : List (String × String))
deriving Repr, DecidableEq

/-- `entity/config_entity.py::DataValidationConfig` (lines 20-24): the
dataclass the validation component is annotated with.  Its fields are
`root_dir`, `validation_report_path` and `columns`; no `all_schema` and no
`drift_report_file_path` field exists. -/
structure DataValidationConfig where
  root_dir : String
  validation_report_path : String
  columns : List (String × String)
deriving Repr, DecidableEq

/-- Python runtime attribute lookup on the `DataValidationConfig`
dataclass: exactly the three declared fields resolve; any other attribute
name raises AttributeError, modelled as `none`. -/
def DataValidationConfig.getattr (c : DataValidationConfig) :
    String → Option ConfigValue
  | "root_dir" => some (.str c.root_dir)
  | "validation_report_path" => some (.str c.validation_report_path)
  | "columns" => some (.dict c.columns)
  | _ => none

/-- `data_validation.py::is_columns_exist` (lines 18-39): iterates
`self.config.all_schema` collecting the schema columns absent from the
frame, returning False when any is missing and True otherwise.  The
attribute read is resolved against the config dataclass; its failure is
caught by the method's own except clause (lines 37-39) and re-raised as a
CustomException. -/
def is_columns_exist (config : DataValidationConfig)
    (data_columns : List String) : Except String Bool :=
  match config.getattr "all_schema" with
  | some (.dict all_schema) =>
      let missing_columns :=
        (all_schema.map (fun kv => kv.1)).filter
          (fun column => ¬ data_columns.contains column)
      .ok (if missing_columns.isEmpty = false then false else true)
  | _ =>
      .error
        "CustomException: AttributeError: DataValidationConfig object has no attribute all_schema"

/-- `data_validation.py::detect_data_drift` (lines 41-98): builds an
evidently DataDriftPreset report on the two frames (external library
mechanics, abstracted by the `evidently_drift_count` argument — the drifted
column count the report would carry), then saves it to
`self.config.drift_report_file_path` (line 79).  That attribute is resolved
against the config dataclass; its failure is re-raised by the except clause
at lines 96-98.  Only past the save does line 88 decide drift: detected
exactly when the count is positive. -/
def detect_data_drift (config : DataValidationConfig)
    (evidently_drift_count : ℕ) : Except String Bool :=
  match config.getattr "drift_report_file_path" with
  | some (.str drift_report_file_path) =>
      .ok (if evidently_drift_count > 0 then true else false)
  | _ =>
      .error
        "CustomException: AttributeError: DataValidationConfig object has no attribute drift_report_file_path"

/-- `data_validation.py::initiate_data_validation` (lines 100-137): checks
both frames for the required columns (raising an explicit CustomException
when any is missing), runs the drift check, and then constructs
`DataValidationArtifact(validation_status=..., message=...,
drift_report_file_path=...)` (lines 126-130) — keyword arguments the entity
dataclass does not declare, so the construction itself is a TypeError.
Every error is wrapped by the outer except (lines 135-137). -/
def initiate_data_validation (config : DataValidationConfig)
    (reference_columns current_columns : List String)
    (evidently_drift_count : ℕ) : Except String DataValidationArtifact :=
  match is_columns_exist config reference_columns with
  | .error e => .error e
  | .ok false =>
      .error
        "CustomException: Reference/ training data is missing some required columns."
  | .ok true =>
      match is_columns_exist config current_columns with
      | .error e => .error e
      | .ok false =>
          .error
            "CustomException: Current/ testing data is missing some required columns."
      | .ok true =>
          match detect_data_drift config evidently_drift_count with
          | .error e => .error e
          | .ok drift_detected =>
              .error
                "CustomException: TypeError: DataValidationArtifact init got an unexpected keyword argument message"

/-- `orchestrator/training_flow.py::data_transformation_task` (lines 32-43):
the guard at the top of the transformation stage raises when the validation
artifact is negative; the transformer invocation that follows is abstracted
as the unit result. -/
def data_transformation_task
    (validation_artifact : DataValidationArtifact) : Except String Unit :=
  if !validation_artifact.validation_status then
    .error "Data validation failed. Cannot proceed to data transformation."
  else
    .ok ()

/-- A concrete validation config with the schema the repository uses. -/
def sample_validation_config : DataValidationConfig :=
  ⟨"artifacts/data_validation", "artifacts/data_validation/report.json",
    [("Credit_Limit", "float64"), ("Total_Trans_Amt", "int64")]⟩

/-- Claim C5 counterexample: on a reference frame missing the required
column `Total_Trans_Amt`, validation does not produce a ValidationArtifact
with `validation_status = False` — it raises a CustomException (the very
first schema read, `self.config.all_schema`, resolves against a dataclass
that declares `columns` instead, so the run aborts before any column is
compared). -/
theorem missing_column_raises :
    initiate_data_validation sample_validation_config ["Credit_Limit"]
        ["Credit_Limit", "Total_Trans_Amt"] 0 =
      .error
        "CustomException: AttributeError: DataValidationConfig object has no attribute all_schema" := by
  rfl

/-- Claim C5 as amended: validation never produces a ValidationArtifact —
negative or otherwise.  Every call to `initiate_data_validation` raises a
CustomException: the component reads `self.config.all_schema`, a field
`DataValidationConfig` does not declare, so data-quality failures surface
as exceptions, not as a negative artifact (and even were the attribute
present, a missing required column triggers an explicit raise, column types
are never checked, and the artifact construction itself would be a
TypeError against the entity dataclass).  The second half of the claim
holds: the transformation stage raises, so later stages do not run,
whenever its validation artifact has `validation_status = False`. -/
theorem validation_always_raises_and_guard :
    (∀ (config : DataValidationConfig)
        (reference_columns current_columns : List String) (count : ℕ),
        initiate_data_validation config reference_columns current_columns
            count =
          .error
            "CustomException: AttributeError: DataValidationConfig object has no attribute all_schema") ∧
      (∀ validation_artifact : DataValidationArtifact,
        validation_artifact.validation_status = false →
          data_transformation_task validation_artifact =
            .error "Data validation failed. Cannot proceed to data transformation.") := by
  constructor
  · intro config reference_columns current_columns count
    rfl
  · intro validation_artifact h
    rw [data_transformation_task, h]
    rfl

/-- Witness for the amended claim C5 at concrete inputs: validation on
complete frames still raises the AttributeError, and a negative artifact
makes the transformation task raise. -/
theorem validation_always_raises_and_guard_witness :
    initiate_data_validation sample_validation_config
        ["Credit_Limit", "Total_Trans_Amt"]
        ["Credit_Limit", "Total_Trans_Amt"] 3 =
      .error
        "CustomException: AttributeError: DataValidationConfig object has no attribute all_schema" ∧
      data_transformation_task
          ⟨false, "artifacts/data_validation/report.json"⟩ =
        .error "Data validation failed. Cannot proceed to data transformation." :=
  ⟨validation_always_raises_and_guard.1 sample_validation_config
      ["Credit_Limit", "Total_Trans_Amt"] ["Credit_Limit", "Total_Trans_Amt"]
      3,
    validation_always_raises_and_guard.2
      ⟨false, "artifacts/data_validation/report.json"⟩ rfl⟩

end DataValidation

namespace DataTransformation

/-- A data row, read by column name. -/
abbrev RowFun := String → ℚ

/-- A pandas frame of numeric feature columns. -/
structure DFrame where
  columns : List String
  rows : List RowFun

/-- A persisted train/test CSV as `initiate_data_transformation` reads it:
the numeric feature columns plus the textual target column (split off at
lines 98-105 into `X = df.drop(columns=[target])` and `y = df[target]`). -/
structure RawFrame where
  feature_columns : List String
  feature_rows : List RowFun
  target : List String

/-- `data_transformation.py::FeatureEngineer.transform` (lines 31-50):
adds `Activity_Growth` (a ratio with zero substituted for the undefined
division, via `replace(0, nan)` and `fillna(0)`), adds `Customer_Value`
(a product of three raw columns), then drops the configured columns.
Row-wise, hence row-count preserving. -/
def feature_engineer_transform (drop_columns : List String) (X : DFrame) :
    DFrame :=
  let engineered : RowFun → RowFun := fun row col =>
    if col = "Activity_Growth" then
      if row "Total_Trans_Amt" = 0 then 0
      else row "Total_Amt_Chng_Q4_Q1" / row "Total_Trans_Amt"
    else if col = "Customer_Value" then
      row "Total_Revolving_Bal" * row "Avg_Utilization_Ratio" *
        row "Credit_Limit"
    else row col
  { columns :=
      (X.columns ++ ["Activity_Growth", "Customer_Value"]).filter
        (fun c => ¬ drop_columns.contains c),
    rows := X.rows.map engineered }

/-- The per-column location/scale parameters a fitted StandardScaler holds. -/
structure ScalerParams where
  mean : String → ℚ
  scale : String → ℚ

/-- `sklearn.preprocessing.StandardScaler.transform`: subtract the learned
mean and divide by the learned scale, column-wise.  Row-wise, hence
row-count preserving.  (The parameter estimation itself — `fit` — is sklearn
numerics involving a square root and is abstracted by a `learn_scaler`
oracle where used.) -/
def standard_scaler_transform (params : ScalerParams) (X : DFrame) : DFrame :=
  { X with
      rows :=
        X.rows.map (fun row col => (row col - params.mean col) / params.scale col) }

/-- The label encoding of lines 99-105:
`map(Attrited Customer -> 1, Existing Customer -> 0)`; pandas yields NaN
(modelled `none`) for any other value. -/
def map_target (s : String) : Option ℚ :=
  if s = "Attrited Customer" then some 1
  else if s = "Existing Customer" then some 0
  else none

/-- `imblearn.over_sampling.SMOTE.fit_resample` with the default
`sampling_strategy auto` on the binary churn label: each class is brought
up to the majority-class count by appending synthetic samples; the
k-nearest-neighbour interpolation that fabricates each synthetic row is
library internals, abstracted by the `synthesize` argument. -/
def smote_fit_resample (synthesize : ℚ → ℕ → RowFun) (X : List RowFun)
    (y : List (Option ℚ)) : List RowFun × List (Option ℚ) :=
  let n0 := y.countP (fun label => decide (label = some 0))
  let n1 := y.countP (fun label => decide (label = some 1))
  let majority := max n0 n1
  (X ++ (List.range (majority - n0)).map (synthesize 0) ++
      (List.range (majority - n1)).map (synthesize 1),
    y ++ List.replicate (majority - n0) (some 0) ++
      List.replicate (majority - n1) (some 1))

/-- What `initiate_data_transformation` persists: the resampled training
matrix with the label appended as final column (`np.c_`), the transformed
test matrix likewise, and the fitted preprocessing parameters. -/
structure TransformationOutcome where
  train_arr : List (RowFun × Option ℚ)
  test_arr : List (RowFun × Option ℚ)
  preprocessor : ScalerParams

/-- `data_transformation.py::initiate_data_transformation` (lines 76-141):
split features from target, fit the feature-engineering + scaling pipeline
on the training split only, transform both splits with the fitted
parameters, then resample ONLY the transformed training split with SMOTE,
and persist both matrices with the label as final column. -/
def initiate_data_transformation (learn_scaler : DFrame → ScalerParams)
    (synthesize : ℚ → ℕ → RowFun) (drop_columns : List String)
    (train_df test_df : RawFrame) : TransformationOutcome :=
  let X_train : DFrame := ⟨train_df.feature_columns, train_df.feature_rows⟩
  let y_train := train_df.target.map map_target
  let X_test : DFrame := ⟨test_df.feature_columns, test_df.feature_rows⟩
  let y_test := test_df.target.map map_target
  let preprocessor := learn_scaler (feature_engineer_transform drop_columns X_train)
  let X_train_transformed :=
    standard_scaler_transform preprocessor
      (feature_engineer_transform drop_columns X_train)
  let X_test_transformed :=
    standard_scaler_transform preprocessor
      (feature_engineer_transform drop_columns X_test)
  let resampled := smote_fit_resample synthesize X_train_transformed.rows y_train
  { train_arr := resampled.1.zip resampled.2,
    test_arr := X_test_transformed.rows.zip y_test,
    preprocessor := preprocessor }

theorem countP_map_target_one (target : List String) :
    (target.map map_target).countP (fun label => decide (label = some 1)) =
      target.countP (fun s => decide (s = "Attrited Customer")) := by
  rw [List.countP_map]
  congr 1
  funext s
  by_cases h1 : s = "Attrited Customer"
  · simp [map_target, h1]
  · by_cases h2 : s = "Existing Customer" <;>
      simp [map_target, h1, h2]

theorem countP_map_target_zero (target : List String) :
    (target.map map_target).countP (fun label => decide (label = some 0)) =
      target.countP (fun s => decide (s = "Existing Customer")) := by
  rw [List.countP_map]
  congr 1
  funext s
  by_cases h1 : s = "Attrited Customer"
  · simp [map_target, h1]
  · by_cases h2 : s = "Existing Customer" <;>
      simp [map_target, h1, h2]

theorem length_eq_label_counts (target : List String)
    (hlabels : ∀ s ∈ target,
      s = "Attrited Customer" ∨ s = "Existing Customer") :
    target.length =
      target.countP (fun s => decide (s = "Attrited Customer")) +
        target.countP (fun s => decide (s = "Existing Customer")) := by
  induction target with
  | nil => rfl
  | cons s rest ih =>
      have hs := hlabels s (List.mem_cons_self s rest)
      have hrest : ∀ t ∈ rest,
          t = "Attrited Customer" ∨ t = "Existing Customer" :=
        fun t ht => hlabels t (List.mem_cons_of_mem s ht)
      rcases hs with h | h <;>
        simp [List.countP_cons, h, ih hrest] <;> omega

/-- Claim C7: resampling is applied only to the training split — the
transformed test matrix has exactly as many rows as the input test dataset,
while the resampled training matrix has strictly more rows than the input
training dataset whenever the two churn classes are imbalanced. -/
theorem no_leakage_resampling (learn_scaler : DFrame → ScalerParams)
    (synthesize : ℚ → ℕ → RowFun) (drop_columns : List String)
    (train_df test_df : RawFrame)
    (htrain_len : train_df.feature_rows.length = train_df.target.length)
    (htest_len : test_df.feature_rows.length = test_df.target.length)
    (hlabels : ∀ s ∈ train_df.target,
      s = "Attrited Customer" ∨ s = "Existing Customer")
    (himbalanced :
      train_df.target.countP (fun s => decide (s = "Attrited Customer")) ≠
        train_df.target.countP (fun s => decide (s = "Existing Customer"))) :
    (initiate_data_transformation learn_scaler synthesize drop_columns
          train_df test_df).test_arr.length =
        test_df.feature_rows.length ∧
      (initiate_data_transformation learn_scaler synthesize drop_columns
            train_df test_df).train_arr.length >
        train_df.feature_rows.length := by
  constructor
  · simp [initiate_data_transformation, standard_scaler_transform,
      feature_engineer_transform, htest_len]
  · have hone := countP_map_target_one train_df.target
    have hzero := countP_map_target_zero train_df.target
    have hsum := length_eq_label_counts train_df.target hlabels
    simp only [initiate_data_transformation, smote_fit_resample,
      standard_scaler_transform, feature_engineer_transform,
      List.length_zip, List.length_append, List.length_map,
      List.length_range, List.length_replicate, gt_iff_lt]
    rw [hone, hzero]
    set nA := train_df.target.countP (fun s => decide (s = "Attrited Customer")) with hnA
    set nE := train_df.target.countP (fun s => decide (s = "Existing Customer")) with hnE
    have hmaxA : nA ≤ max nE nA := le_max_right nE nA
    have hmaxE : nE ≤ max nE nA := le_max_left nE nA
    have hchoice : max nE nA = nE ∨ max nE nA = nA := max_choice nE nA
    rw [htrain_len, hsum]
    omega

/-- A concrete all-ones data row for witness runs. -/
def sample_row : RowFun := fun _ => 1

/-- A concrete 3-row training frame: one attrited and two existing
customers (imbalanced 1 vs 2). -/
def sample_train : RawFrame :=
  ⟨["Credit_Limit"], [sample_row, sample_row, sample_row],
    ["Attrited Customer", "Existing Customer", "Existing Customer"]⟩

/-- A concrete 2-row test frame. -/
def sample_test : RawFrame :=
  ⟨["Credit_Limit"], [sample_row, sample_row],
    ["Existing Customer", "Existing Customer"]⟩

/-- A trivial concrete scaler-fitting oracle for witness runs. -/
def sample_learn : DFrame → ScalerParams := fun _ => ⟨fun _ => 0, fun _ => 1⟩

/-- A trivial concrete SMOTE synthesis oracle for witness runs. -/
def sample_synthesize : ℚ → ℕ → RowFun := fun _ _ _ => 0

/-- Witness for claim C7 at the concrete frames: the 2-row test split keeps
exactly 2 rows, and the imbalanced 3-row training split grows (to 4 rows). -/
theorem no_leakage_resampling_witness :
    (initiate_data_transformation sample_learn sample_synthesize []
          sample_train sample_test).test_arr.length =
        sample_test.feature_rows.length ∧
      (initiate_data_transformation sample_learn sample_synthesize []
            sample_train sample_test).train_arr.length >
        sample_train.feature_rows.length :=
  no_leakage_resampling sample_learn sample_synthesize [] sample_train
    sample_test rfl rfl (by decide) (by decide)

end DataTransformation

namespace DataIngestion

/-- `data_ingestion.py::fetch_and_save_data` (lines 24-55): builds the query
from the configured columns, fetches the result set into a frame and writes
it to the feature-store CSV unconditionally — there is no emptiness check
anywhere in the method.  The persisted feature-store content is the result;
any connectivity or query error (the `query_result` error case) is wrapped
in a CustomException and re-raised. -/
def fetch_and_save_data {α : Type} (query_result : Except String (List α)) :
    Except String (List α) :=
  match query_result with
  | .ok df => .ok df
  | .error e => .error ("CustomException: " ++ e)

/-- Claim C9 counterexample: an ingestion run whose query returns an empty
result set persists the empty dataset and completes successfully — no
failure is reported. -/
theorem fetch_empty_result_succeeds :
    fetch_and_save_data (.ok ([] : List (String → ℚ))) = .ok [] := by
  rfl

/-- Claim C9 as amended: `fetch_and_save_data` persists whatever the query
returns — the empty result set included — and reports success; result-set
non-emptiness is never checked (only connectivity/query errors are wrapped
and propagated). -/
theorem fetch_and_save_data_persists_any_result {α : Type}
    (query_rows : List α) :
    fetch_and_save_data (.ok query_rows) = .ok query_rows := by
  rfl

/-- `sklearn.model_selection.train_test_split` with the default
`shuffle=True`, as called by `data_ingestion.py::split_data` (lines 67-69):
with a float `test_size`, sklearn takes `n_test = ceil(test_size * n)`,
draws a seeded permutation of the row indices (numpy RandomState internals,
abstracted by the `permutation` argument — a function of the seed and the
row count, assumed where needed to permute `range n`), and returns the rows
at the first `n_test` shuffled indices as the test split and the rest as
the training split. -/
def train_test_split (permutation : ℕ → ℕ → List ℕ) (random_state : ℕ)
    (test_size : ℚ) (n_samples : ℕ) : List ℕ × List ℕ :=
  let n_test := ⌈test_size * n_samples⌉₊
  let shuffled := permutation random_state n_samples
  (shuffled.drop n_test, shuffled.take n_test)

/-- `data_ingestion.py::split_data` (lines 59-87): reads the feature store,
splits with `test_size = config.train_test_split_ratio` and
`random_state = config.random_state`, and persists the two splits.  The
splits are identified by their row-index lists. -/
def split_data (permutation : ℕ → ℕ → List ℕ) (random_state : ℕ)
    (train_test_split_ratio : ℚ) (n_samples : ℕ) : List ℕ × List ℕ :=
  train_test_split permutation random_state train_test_split_ratio n_samples

/-- Claim C8: for every non-empty input dataset, the ingestion split
produces disjoint train and test row sets whose sizes sum to the total row
count, with the test share equal to the configured ratio up to one row of
rounding; and the split is deterministic — it is a function of the seed and
the input alone (numpy's seeded permutation is abstracted as such a
function), so two runs on the same input are identical. -/
theorem split_data_spec (permutation : ℕ → ℕ → List ℕ) (random_state : ℕ)
    (ratio : ℚ) (n : ℕ)
    (hperm : (permutation random_state n).Perm (List.range n))
    (hn : 0 < n) (hr0 : 0 ≤ ratio) (hr1 : ratio ≤ 1) :
    (split_data permutation random_state ratio n).1.Disjoint
        (split_data permutation random_state ratio n).2 ∧
      (split_data permutation random_state ratio n).1.length +
          (split_data permutation random_state ratio n).2.length = n ∧
      |(((split_data permutation random_state ratio n).2.length : ℚ)) -
          ratio * n| ≤ 1 ∧
      split_data permutation random_state ratio n =
        split_data permutation random_state ratio n := by
  have hnodup : (permutation random_state n).Nodup :=
    hperm.nodup_iff.mpr (List.nodup_range n)
  have hlen : (permutation random_state n).length = n := by
    simpa using hperm.length_eq
  have hx0 : (0 : ℚ) ≤ ratio * n := by positivity
  have hxn : ratio * (n : ℚ) ≤ (n : ℚ) := by
    calc ratio * (n : ℚ) ≤ 1 * (n : ℚ) :=
          mul_le_mul_of_nonneg_right hr1 (by positivity)
      _ = (n : ℚ) := one_mul _
  have hceil_le : ⌈ratio * (n : ℚ)⌉₊ ≤ n := Nat.ceil_le.mpr hxn
  refine ⟨?_, ?_, ?_, rfl⟩
  · exact (List.disjoint_take_drop hnodup le_rfl).symm
  · simp only [split_data, train_test_split, List.length_drop,
      List.length_take, hlen]
    omega
  · simp only [split_data, train_test_split, List.length_take, hlen]
    have htake : min ⌈ratio * (n : ℚ)⌉₊ n = ⌈ratio * (n : ℚ)⌉₊ :=
      min_eq_left hceil_le
    rw [htake]
    have hle : ratio * (n : ℚ) ≤ (⌈ratio * (n : ℚ)⌉₊ : ℚ) :=
      Nat.le_ceil _
    have hlt : ((⌈ratio * (n : ℚ)⌉₊ : ℚ)) < ratio * (n : ℚ) + 1 :=
      Nat.ceil_lt_add_one hx0
    rw [abs_le]
    constructor <;> linarith

/-- A concrete permutation oracle for witness runs: reverse the index
range. -/
def witness_permutation : ℕ → ℕ → List ℕ := fun _ n => (List.range n).reverse

/-- Witness for claim C8, on the 4-row dataset of the spec end-to-end
scenario with ratio 0.25 and seed 42: a 3-row training split and a 1-row
testing split, disjoint, summing to 4, with the test share within one row
of the ratio. -/
theorem split_data_spec_witness :
    (split_data witness_permutation 42 (1/4) 4).1.Disjoint
        (split_data witness_permutation 42 (1/4) 4).2 ∧
      (split_data witness_permutation 42 (1/4) 4).1.length +
          (split_data witness_permutation 42 (1/4) 4).2.length = 4 ∧
      |(((split_data witness_permutation 42 (1/4) 4).2.length : ℚ)) -
          (1/4) * 4| ≤ 1 ∧
      split_data witness_permutation 42 (1/4) 4 =
        split_data witness_permutation 42 (1/4) 4 :=
  split_data_spec witness_permutation 42 (1/4) 4
    ((List.range 4).reverse_perm) (by norm_num) (by norm_num) (by norm_num)

end DataIngestion

end ChurnProject
